import Mathlib

/-!
Shallow embedding of the website-analysis pipeline of
`src/core/analyzer.py` and the postcode extractor of
`src/utils/helpers.py` from the uk_business_lead_generator repository,
together with theorems settling the frozen claims about them.

External collaborators (the HTTP client, the subprocess facility and the
temporary-file facility) are modelled as oracle fields of an `Env`
record: a theorem quantified over `Env` holds for every behaviour of
those collaborators, including failures.  Python exceptions are modelled
with `Except`; Python machine floats for the fractional category scores
are modelled as rationals (the concrete values used in theorems are
exactly representable in binary floating point, so the models agree with
the float computation there).
-/

set_option maxHeartbeats 4000000

namespace LeadGen

/- Batteries marks rational arithmetic `irreducible`; evaluation inside
`decide` needs it unfolded. -/
attribute [local semireducible] Rat.mul Rat.add Rat.sub Rat.inv

/-- Python exceptions relevant to the analyzer: `requests.RequestException`
and any other `Exception`, each carrying `str(e)`. -/
inductive PyExc where
  | requestException (msg : String)
  | otherException (msg : String)
deriving DecidableEq, Repr

/-- The `str(e)` text of a modelled exception. -/
def PyExc.msg : PyExc → String
  | .requestException m => m
  | .otherException m => m

/-- The parts of a `requests` response the analyzer reads: status code,
final URL after redirects, body text, `len(response.content)` in bytes,
and the response header names. -/
structure HttpResponse where
  status_code : Nat
  url : String
  text : String
  content_length : Nat
  headers : List String
deriving DecidableEq, Repr

/-- The mutable results dictionary threaded through the pipeline
(`analyzer.py`, lines 75-83).  `priority` is `none` until (unless) line
108 sets it. -/
structure AnalysisResult where
  performance_score : ℤ
  seo_score : ℤ
  accessibility_score : ℤ
  best_practices_score : ℤ
  has_ssl : Bool
  has_mobile_viewport : Bool
  issues : List String
  priority : Option ℕ
deriving DecidableEq, Repr

/-- The initial results record of `analyze_website` (lines 75-83). -/
def initResults : AnalysisResult :=
  { performance_score := 0, seo_score := 0, accessibility_score := 0,
    best_practices_score := 0, has_ssl := false, has_mobile_viewport := false,
    issues := [], priority := none }

/-- `results['issues'].append(s)`. -/
def addIssue (r : AnalysisResult) (s : String) : AnalysisResult :=
  { r with issues := r.issues ++ [s] }

/-! ### String helpers modelling Python primitives -/

/-- `pat in hay` for `List Char`: leftmost scan trying a match at every
position, as Python substring containment does. -/
def occursIn (hay pat : List Char) : Bool :=
  if pat.isPrefixOf hay then true
  else
    match hay with
    | [] => false
    | _ :: t => occursIn t pat

/-- Python `sub in s` on strings. -/
def strContains (s sub : String) : Bool := occursIn s.toList sub.toList

/-- Python `str.lower()` (ASCII suffices for the analyzer's uses). -/
def pyLower (s : String) : String := String.mk (s.toList.map Char.toLower)

/-- Python `str.upper()` (ASCII suffices for the postcode extractor). -/
def pyUpper (s : String) : String := String.mk (s.toList.map Char.toUpper)

/-- Python `str.startswith(p)`. -/
def pyStartsWith (s p : String) : Bool := p.toList.isPrefixOf s.toList

/-- Python `' '.join(l)`. -/
def joinSpace : List String → String
  | [] => ""
  | [s] => s
  | s :: s₂ :: rest => s ++ " " ++ joinSpace (s₂ :: rest)

theorem occursIn_infix_iff (hay pat : List Char) :
    occursIn hay pat = true ↔ pat <:+: hay := by
  induction hay with
  | nil =>
    rw [occursIn]
    constructor
    · intro h
      split at h
      · next hp =>
        have : pat <+: ([] : List Char) := List.isPrefixOf_iff_prefix.mp hp
        simpa using this.isInfix
      · exact absurd h (by simp)
    · intro h
      have : pat = [] := by simpa using h
      subst this
      simp
  | cons c t ih =>
    rw [occursIn]
    constructor
    · intro h
      split at h
      · next hp =>
        exact (List.isPrefixOf_iff_prefix.mp hp).isInfix
      · exact List.infix_cons (ih.mp h)
    · intro h
      rcases List.infix_cons_iff.mp h with hpre | hinf
      · simp [List.isPrefixOf_iff_prefix.mpr hpre]
      · split
        · rfl
        · exact ih.mpr hinf

theorem occursIn_mono {hay hay₂ pat : List Char}
    (h : occursIn hay₂ pat = true) (hsub : hay₂ <:+: hay) :
    occursIn hay pat = true :=
  (occursIn_infix_iff hay pat).mpr (((occursIn_infix_iff hay₂ pat).mp h).trans hsub)

/-! ### Numeric helpers modelling Python primitives -/

/-- Python `int()` applied to a (nonnegative or negative) number:
truncation toward zero. -/
def pyInt (q : ℚ) : ℤ := if 0 ≤ q then ⌊q⌋ else ⌈q⌉

/-- Python `round()` to an integer: round half to even.  Modelled from
the spec, which asks for `round(fractional_score * 100)`; the code uses
`int(...)` instead (see the C4 theorems). -/
def pyRound (q : ℚ) : ℤ :=
  let f : ℤ := ⌊q⌋
  let frac : ℚ := q - f
  if frac < 1 / 2 then f
  else if 1 / 2 < frac then f + 1
  else if f % 2 = 0 then f else f + 1

/-- Format a nonnegative rational with one decimal digit, as the Python
f-string `{x:.1f}` does (round half to even on the tenths digit). -/
def format1f (q : ℚ) : String :=
  let t : ℤ := pyRound (q * 10)
  toString (t / 10) ++ "." ++ toString (t % 10)

/-- `urlparse(u).netloc`, restricted to the shapes the analyzer feeds
it: the text after the first `"://"` up to the next `/`, `?` or `#`, and
`""` when no `"://"` occurs. -/
def dropAfterMarker (m : List Char) : List Char → Option (List Char)
  | [] => if m.isEmpty then some [] else none
  | c :: t =>
    if m.isPrefixOf (c :: t) then some ((c :: t).drop m.length)
    else dropAfterMarker m t

/-- See `dropAfterMarker`. -/
def netloc (u : String) : String :=
  match dropAfterMarker "://".toList u.toList with
  | some rest =>
      String.mk (rest.takeWhile (fun c => c ≠ '/' && c ≠ '?' && c ≠ '#'))
  | none => ""

/-! ### The external audit report (parsed Lighthouse JSON) -/

/-- One entry of the report's `audits` section: `score` (may be absent,
`.get('score', 1)` then defaults to 1) and `displayValue` (may be
absent, an f-string then renders it as `"None"`). -/
structure AuditEntry where
  score : Option ℚ
  displayValue : Option String
deriving DecidableEq, Repr

/-- The parsed external report: a `categories` section mapping category
name to its fractional score and an `audits` section.  A key absent from
the JSON object is absent from the association list. -/
structure LhData where
  categories : List (String × ℚ)
  audits : List (String × AuditEntry)
deriving DecidableEq, Repr

/-- `lighthouse_data.get('displayValue')` rendered inside an f-string. -/
def pyStrOfOpt : Option String → String
  | some s => s
  | none => "None"

/-! ### Collaborator environment -/

/-- State of the temporary output file: missing, existing but empty,
existing with content that `json.load` rejects, or existing with content
that parses to a report. -/
inductive TmpFile where
  | absent
  | empty
  | unparseable
  | parsed (d : LhData)
deriving DecidableEq, Repr

/-- `os.path.exists(output_path)`. -/
def tmpExists : TmpFile → Bool
  | .absent => false
  | _ => true

/-- The `finally` clause of `_run_lighthouse` (lines 277-280):
`if os.path.exists(output_path): os.unlink(output_path)`. -/
def applyFinally (_f : TmpFile) : TmpFile := .absent

/-- Outcome of one subprocess invocation that writes the output file:
whether it raised (`subprocess.TimeoutExpired` or anything else), and
the state the output file was left in. -/
structure SubprocOutcome where
  raised : Option PyExc
  file : TmpFile
deriving DecidableEq, Repr

/-- Behaviour of the subprocess/filesystem collaborators used by
`_run_lighthouse`: whether `tempfile.mkstemp` raises, whether a Chrome
binary is present, whether `subprocess.Popen` on Chrome raises, and the
outcomes of the npx run and of the standalone run. -/
structure ToolEnv where
  mkstempFails : Option PyExc
  chromeFound : Bool
  chromeStartFails : Bool
  npxRun : SubprocOutcome
  standaloneRun : SubprocOutcome

/-- Behaviour of all collaborators of one `analyze_website` call:
`requests.head`, `requests.get` (an `Except` value models a raised
exception) and the external-tool collaborators. -/
structure Env where
  head : String → Except PyExc HttpResponse
  get : String → Except PyExc HttpResponse
  tool : ToolEnv

/-! ### Pipeline stages (from `src/core/analyzer.py`) -/

/-- The fixed header set of `_perform_basic_analysis` (line 391). -/
def securityHeaders : List String :=
  ["Strict-Transport-Security", "Content-Security-Policy", "X-Content-Type-Options"]

/-- `h in headers` on a `requests` header mapping (case-insensitive). -/
def headersContain (hs : List String) (h : String) : Bool :=
  hs.any (fun x => pyLower x == pyLower h)

/-- Lines 115-127 of `_check_website_basics`: the SSL flag, its issue,
and the best-effort HTTPS probe whose failures are swallowed. -/
def sslCheck (env : Env) (url : String) (r0 : AnalysisResult) :
    AnalysisResult :=
  let hasSsl := pyStartsWith url "https://"
  let r1 := { r0 with has_ssl := hasSsl }
  if hasSsl then r1
  else
    let r := addIssue r1 "Website does not use SSL (https)"
    let httpsUrl :=
      if pyStartsWith url "http://" then "https://" ++ url.drop 7
      else "https://" ++ url
    match env.head httpsUrl with
    | .ok resp =>
        if resp.status_code < 400 then
          addIssue r "HTTPS is available but not used by default"
        else r
    | .error _ => r

/-- Lines 137-139 of `_check_website_basics`. -/
def redirectCheck (url : String) (resp : HttpResponse) (r : AnalysisResult) :
    AnalysisResult :=
  if netloc resp.url ≠ netloc url then
    addIssue r ("Website redirects to " ++ resp.url)
  else r

/-- Lines 141-145 of `_check_website_basics`. -/
def viewportCheck (resp : HttpResponse) (r : AnalysisResult) :
    AnalysisResult :=
  if strContains (pyLower resp.text) "viewport" then
    { r with has_mobile_viewport := true }
  else addIssue r "No mobile viewport meta tag found"

/-- Lines 147-150 of `_check_website_basics`. -/
def sizeCheck (resp : HttpResponse) (r : AnalysisResult) : AnalysisResult :=
  if 5000 * 1024 < resp.content_length then
    addIssue r ("Page size is large (" ++
      format1f ((resp.content_length : ℚ) / 1024) ++ " KB)")
  else r

/-- `WebsiteAnalyzer._check_website_basics` (lines 112-155). -/
def check_website_basics (env : Env) (url : String) (r0 : AnalysisResult) :
    AnalysisResult :=
  let r2 := sslCheck env url r0
  match env.get url with
  | .error (.requestException m) =>
      addIssue r2 ("Error accessing website: " ++ m)
  | .error (.otherException m) =>
      addIssue r2 ("Error during basic analysis: " ++ m)
  | .ok resp =>
      if 400 ≤ resp.status_code then
        addIssue r2 ("Website returns HTTP status " ++ toString resp.status_code)
      else
        sizeCheck resp (viewportCheck resp (redirectCheck url resp r2))

/-- Lines 360-364 of `_perform_basic_analysis`. -/
def perfSizeCheck (resp : HttpResponse) (r : AnalysisResult) : AnalysisResult :=
  if 1000000 < resp.content_length then
    { addIssue r "Large page size" with performance_score := 50 }
  else { r with performance_score := 70 }

/-- Lines 369-372 of `_perform_basic_analysis`. -/
def seoTitleCheck (html : String) (r : AnalysisResult) : AnalysisResult :=
  if !strContains html "<title>" || strContains html "<title></title>" then
    { addIssue r "Missing page title" with seo_score := 40 }
  else r

/-- Lines 374-377 of `_perform_basic_analysis`. -/
def seoMetaCheck (html : String) (r : AnalysisResult) : AnalysisResult :=
  if !strContains html "meta name=\"description\"" &&
      !strContains html "meta content=" then
    { addIssue r "Missing meta description" with seo_score := 40 }
  else r

/-- Lines 382-385 of `_perform_basic_analysis`: note the disjunction is
the literal one of the code; its second disjunct is subsumed by the
first. -/
def imgAltCheck (html : String) (r : AnalysisResult) : AnalysisResult :=
  if strContains html "<img " &&
      (!strContains html " alt=\"" || !strContains html " alt=") then
    { addIssue r "Images may be missing alt text" with accessibility_score := 40 }
  else r

/-- Lines 390-396 of `_perform_basic_analysis`. -/
def headersCheck (resp : HttpResponse) (r : AnalysisResult) : AnalysisResult :=
  let missing := securityHeaders.filter (fun h => !headersContain resp.headers h)
  if missing.isEmpty then r
  else
    { addIssue r ("Missing security headers: " ++ String.intercalate ", " missing)
      with best_practices_score := 40 }

/-- `WebsiteAnalyzer._perform_basic_analysis` (lines 349-399). -/
def perform_basic_analysis (env : Env) (url : String) (r0 : AnalysisResult) :
    AnalysisResult :=
  match env.get url with
  | .error e => addIssue r0 ("Error during basic analysis: " ++ e.msg)
  | .ok resp =>
      let html := pyLower resp.text
      let r1 := perfSizeCheck resp r0
      let r2 := { r1 with seo_score := 60 }
      let r4 := seoMetaCheck html (seoTitleCheck html r2)
      let r5 := { r4 with accessibility_score := 50 }
      let r6 := imgAltCheck html r5
      let r7 := { r6 with best_practices_score := 60 }
      headersCheck resp r7

/-- An audit check of `_process_lighthouse_results` whose issue message
embeds the audit's display value (LCP, TBT, CLS; lines 304-317). -/
def auditTimingIssue (audits : List (String × AuditEntry)) (name msgStart : String)
    (r : AnalysisResult) : AnalysisResult :=
  match audits.lookup name with
  | some a =>
      if a.score.getD 1 < 1 / 2 then
        addIssue r (msgStart ++ pyStrOfOpt a.displayValue ++ ")")
      else r
  | none => r

/-- An audit check of `_process_lighthouse_results` with a fixed issue
message (lines 320-344). -/
def auditPlainIssue (audits : List (String × AuditEntry)) (name msg : String)
    (r : AnalysisResult) : AnalysisResult :=
  match audits.lookup name with
  | some a => if a.score.getD 1 < 1 / 2 then addIssue r msg else r
  | none => r

/-- The audit block of `_process_lighthouse_results` (lines 300-344). -/
def runAudits (audits : List (String × AuditEntry)) (r4 : AnalysisResult) :
    AnalysisResult :=
  let r5 := auditTimingIssue audits "largest-contentful-paint" "Slow content loading (LCP: " r4
  let r6 := auditTimingIssue audits "total-blocking-time" "Poor interactivity (TBT: " r5
  let r7 := auditTimingIssue audits "cumulative-layout-shift" "Layout shifts during loading (CLS: " r6
  let r8 := auditPlainIssue audits "meta-description" "Missing meta description" r7
  let r9 := auditPlainIssue audits "document-title" "Missing or poor document title" r8
  let r10 := auditPlainIssue audits "color-contrast" "Poor color contrast for text" r9
  let r11 := auditPlainIssue audits "image-alt" "Images missing alt text" r10
  let r12 := auditPlainIssue audits "is-on-https" "Not using HTTPS" r11
  auditPlainIssue audits "doctype" "Missing doctype" r12

/-- `WebsiteAnalyzer._process_lighthouse_results` (lines 282-347).
Category scores go through Python `int()` (truncation), not `round()`. -/
def process_lighthouse_results (d : LhData) (r0 : AnalysisResult) :
    AnalysisResult :=
  let cats := d.categories
  let r1 := match cats.lookup "performance" with
    | some q => { r0 with performance_score := pyInt (q * 100) }
    | none => r0
  let r2 := match cats.lookup "accessibility" with
    | some q => { r1 with accessibility_score := pyInt (q * 100) }
    | none => r1
  let r3 := match cats.lookup "best-practices" with
    | some q => { r2 with best_practices_score := pyInt (q * 100) }
    | none => r2
  let r4 := match cats.lookup "seo" with
    | some q => { r3 with seo_score := pyInt (q * 100) }
    | none => r3
  runAudits d.audits r4

instance {ε α : Type} [DecidableEq ε] [DecidableEq α] :
    DecidableEq (Except ε α) := fun a b =>
  match a, b with
  | .error e, .error f => decidable_of_iff (e = f) (by simp)
  | .ok x, .ok y => decidable_of_iff (x = y) (by simp)
  | .error _, .ok _ => isFalse (by simp)
  | .ok _, .error _ => isFalse (by simp)

/-- Result of `_run_lighthouse`: the returned value (`.error` models an
exception escaping the method) and the state of the temporary output
file after the method exits. -/
structure RunOut where
  result : Except PyExc (Option LhData)
  fileAfter : TmpFile
deriving DecidableEq, Repr

/-- The tail of `_run_lighthouse` once the output file is in state `f`
(lines 260-280): parse a nonempty existing file, otherwise report no
output; either way the `finally` clause removes the file. -/
def finishRun (f : TmpFile) : RunOut :=
  match f with
  | .parsed d => { result := .ok (some d), fileAfter := applyFinally f }
  | .unparseable => { result := .ok none, fileAfter := applyFinally f }
  | _ => { result := .ok none, fileAfter := applyFinally f }

/-- `WebsiteAnalyzer._run_lighthouse` (lines 157-280).  `mkstemp` runs
before the `try`, so its failure escapes; every failure inside the
`try` is caught and mapped to no report; the `finally` clause removes
the file on every exit path it guards. -/
def run_lighthouse (t : ToolEnv) : RunOut :=
  match t.mkstempFails with
  | some e => { result := .error e, fileAfter := .absent }
  | none =>
    let fStart : TmpFile := .empty
    let f1 : TmpFile :=
      if t.chromeFound then
        if t.chromeStartFails then fStart else t.npxRun.file
      else fStart
    if tmpExists f1 = false ∨ f1 = .empty then
      match t.standaloneRun.raised with
      | some _ => { result := .ok none, fileAfter := applyFinally t.standaloneRun.file }
      | none => finishRun t.standaloneRun.file
    else finishRun f1

/-- `WebsiteAnalyzer._calculate_priority` (lines 401-422).  Note the
marker test is on `' '.join(results['issues'])`. -/
def calculate_priority (r : AnalysisResult) : ℕ :=
  if strContains (joinSpace r.issues) "Error accessing website" then 1
  else
    let scoresSum : ℤ :=
      r.performance_score + r.seo_score + r.accessibility_score +
        r.best_practices_score
    if ((scoresSum : ℚ) / 4 < 60) ∨ 3 < r.issues.length then 2
    else 3

/-- Result of one `analyze_website` call: the returned record (`.error`
models an exception escaping the call) and the state of the external
tool's temporary output file afterwards (`.absent` when that code path
never ran). -/
structure AnalyzeOut where
  result : Except PyExc AnalysisResult
  tmpFileAfter : TmpFile
deriving DecidableEq, Repr

/-- Lines 91-92 of `analyze_website`: prefix `https://` when the URL
has no scheme. -/
def withScheme (url : String) : String :=
  if pyStartsWith url "http://" || pyStartsWith url "https://" then url
  else "https://" ++ url

/-- `WebsiteAnalyzer.analyze_website` (lines 64-110), with the cached
`self.lighthouse_available` flag passed explicitly. -/
def analyze_website (env : Env) (lighthouse_available : Bool) (url : String) :
    AnalyzeOut :=
  let results := initResults
  if url = "" then
    { result := .ok (addIssue results "No URL provided"), tmpFileAfter := .absent }
  else
    let url' := withScheme url
    let r1 := check_website_basics env url' results
    if lighthouse_available then
      let lh := run_lighthouse env.tool
      match lh.result with
      | .error e => { result := .error e, tmpFileAfter := lh.fileAfter }
      | .ok lighthouseResults =>
          let r2 := match lighthouseResults with
            | some d => process_lighthouse_results d r1
            | none => r1
          { result := .ok { r2 with priority := some (calculate_priority r2) },
            tmpFileAfter := lh.fileAfter }
    else
      let r2 := addIssue r1 "Lighthouse not available for detailed analysis"
      let r3 := perform_basic_analysis env url' r2
      { result := .ok { r3 with priority := some (calculate_priority r3) },
        tmpFileAfter := .absent }

/-! ### `extract_postcode` (from `src/utils/helpers.py`, lines 141-169)

The regex `[A-Z]{1,2}[0-9][A-Z0-9]? ?[0-9][A-Z]{2}` is embedded
directly: `re.search` scans positions left to right and, at each
position, tries the quantifier choices in backtracking order (greedy,
earlier quantifiers outermost). -/

/-- `[A-Z]`. -/
def isUpperCh (c : Char) : Bool := 'A' ≤ c && c ≤ 'Z'

/-- `[0-9]`. -/
def isDigitCh (c : Char) : Bool := '0' ≤ c && c ≤ '9'

/-- `[A-Z0-9]`. -/
def isAlnumCh (c : Char) : Bool := isUpperCh c || isDigitCh c

/-- Whether the head of `cs` matches the given character classes. -/
def matchShape : List (Char → Bool) → List Char → Bool
  | [], _ => true
  | _ :: _, [] => false
  | p :: ps, c :: cs => p c && matchShape ps cs

/-- The character classes of the postcode regex for a fixed choice of
quantifiers: `a` letters (1 or 2), a digit, `b` alphanumerics (0 or 1),
`c` spaces (0 or 1), a digit, two letters. -/
def pcShape (a b c : ℕ) : List (Char → Bool) :=
  List.replicate a isUpperCh ++ [isDigitCh] ++
    (if b = 1 then [isAlnumCh] else []) ++
    (if c = 1 then [(· == ' ')] else []) ++
    [isDigitCh, isUpperCh, isUpperCh]

/-- Quantifier choices in the order the regex engine tries them. -/
def pcCombos : List (ℕ × ℕ × ℕ) :=
  [(2, 1, 1), (2, 1, 0), (2, 0, 1), (2, 0, 0),
   (1, 1, 1), (1, 1, 0), (1, 0, 1), (1, 0, 0)]

/-- Length of the match of the postcode regex anchored at the head of
`cs`, if any. -/
def matchPostcodeAt (cs : List Char) : Option ℕ :=
  (pcCombos.find? (fun abc => matchShape (pcShape abc.1 abc.2.1 abc.2.2) cs)).map
    (fun abc => abc.1 + 1 + abc.2.1 + abc.2.2 + 3)

/-- `re.search` for the postcode regex: the leftmost match. -/
def searchPostcode : List Char → Option (List Char)
  | [] => none
  | c :: rest =>
    match matchPostcodeAt (c :: rest) with
    | some n => some ((c :: rest).take n)
    | none => searchPostcode rest

/-- `extract_postcode` (helpers.py, lines 141-169): search the
uppercased text; reformat an unspaced match by inserting a space before
the last three characters. -/
def extract_postcode (text : String) : Option String :=
  if text = "" then none
  else
    match searchPostcode (pyUpper text).toList with
    | none => none
    | some m =>
      if m.contains ' ' then some (String.mk m)
      else
        let outward := m.take (m.length - 3)
        let inward := m.drop (m.length - 3)
        some (String.mk outward ++ " " ++ String.mk inward)


/-! ### Structural helper lemmas: the issues list only grows -/

theorem addIssue_issues (r : AnalysisResult) (s : String) :
    (addIssue r s).issues = r.issues ++ [s] := rfl

theorem addIssue_performance (r : AnalysisResult) (s : String) :
    (addIssue r s).performance_score = r.performance_score := rfl

theorem addIssue_seo (r : AnalysisResult) (s : String) :
    (addIssue r s).seo_score = r.seo_score := rfl

theorem addIssue_access (r : AnalysisResult) (s : String) :
    (addIssue r s).accessibility_score = r.accessibility_score := rfl

theorem addIssue_bp (r : AnalysisResult) (s : String) :
    (addIssue r s).best_practices_score = r.best_practices_score := rfl

theorem sslCheck_issues_grow (env : Env) (url : String) (r : AnalysisResult) :
    r.issues <+: (sslCheck env url r).issues := by
  simp only [sslCheck]
  split
  · exact List.prefix_rfl
  · split
    · split
      · exact (List.prefix_append _ _).trans (List.prefix_append _ _)
      · exact List.prefix_append _ _
    · exact List.prefix_append _ _

theorem redirectCheck_issues_grow (url : String) (resp : HttpResponse)
    (r : AnalysisResult) :
    r.issues <+: (redirectCheck url resp r).issues := by
  simp only [redirectCheck]
  split
  · exact List.prefix_append _ _
  · exact List.prefix_rfl

theorem viewportCheck_issues_grow (resp : HttpResponse) (r : AnalysisResult) :
    r.issues <+: (viewportCheck resp r).issues := by
  simp only [viewportCheck]
  split
  · exact List.prefix_rfl
  · exact List.prefix_append _ _

theorem sizeCheck_issues_grow (resp : HttpResponse) (r : AnalysisResult) :
    r.issues <+: (sizeCheck resp r).issues := by
  simp only [sizeCheck]
  split
  · exact List.prefix_append _ _
  · exact List.prefix_rfl

theorem check_website_basics_issues_grow (env : Env) (url : String)
    (r : AnalysisResult) :
    r.issues <+: (check_website_basics env url r).issues := by
  simp only [check_website_basics]
  have h0 := sslCheck_issues_grow env url r
  cases hget : env.get url with
  | error e =>
    cases e with
    | requestException m => exact h0.trans (List.prefix_append _ _)
    | otherException m => exact h0.trans (List.prefix_append _ _)
  | ok resp =>
    dsimp only
    split
    · exact h0.trans (List.prefix_append _ _)
    · refine List.IsPrefix.trans ?_ (sizeCheck_issues_grow resp _)
      refine List.IsPrefix.trans ?_ (viewportCheck_issues_grow resp _)
      refine List.IsPrefix.trans ?_ (redirectCheck_issues_grow url resp _)
      exact h0

theorem perfSizeCheck_issues_grow (resp : HttpResponse) (r : AnalysisResult) :
    r.issues <+: (perfSizeCheck resp r).issues := by
  simp only [perfSizeCheck]
  split
  · exact List.prefix_append _ _
  · exact List.prefix_rfl

theorem seoTitleCheck_issues_grow (html : String) (r : AnalysisResult) :
    r.issues <+: (seoTitleCheck html r).issues := by
  simp only [seoTitleCheck]
  split
  · exact List.prefix_append _ _
  · exact List.prefix_rfl

theorem seoMetaCheck_issues_grow (html : String) (r : AnalysisResult) :
    r.issues <+: (seoMetaCheck html r).issues := by
  simp only [seoMetaCheck]
  split
  · exact List.prefix_append _ _
  · exact List.prefix_rfl

theorem imgAltCheck_issues_grow (html : String) (r : AnalysisResult) :
    r.issues <+: (imgAltCheck html r).issues := by
  simp only [imgAltCheck]
  split
  · exact List.prefix_append _ _
  · exact List.prefix_rfl

theorem headersCheck_issues_grow (resp : HttpResponse) (r : AnalysisResult) :
    r.issues <+: (headersCheck resp r).issues := by
  simp only [headersCheck]
  split
  · exact List.prefix_rfl
  · exact List.prefix_append _ _

theorem perform_basic_analysis_issues_grow (env : Env) (url : String)
    (r : AnalysisResult) :
    r.issues <+: (perform_basic_analysis env url r).issues := by
  simp only [perform_basic_analysis]
  cases hget : env.get url with
  | error e => exact List.prefix_append _ _
  | ok resp =>
    dsimp only
    refine List.IsPrefix.trans ?_ (headersCheck_issues_grow resp _)
    refine List.IsPrefix.trans ?_ (imgAltCheck_issues_grow _ _)
    refine List.IsPrefix.trans ?_ (seoMetaCheck_issues_grow _ _)
    refine List.IsPrefix.trans ?_ (seoTitleCheck_issues_grow _ _)
    exact perfSizeCheck_issues_grow resp r

theorem auditTimingIssue_issues_grow (audits : List (String × AuditEntry))
    (name msgStart : String) (r : AnalysisResult) :
    r.issues <+: (auditTimingIssue audits name msgStart r).issues := by
  simp only [auditTimingIssue]
  split
  · split
    · exact List.prefix_append _ _
    · exact List.prefix_rfl
  · exact List.prefix_rfl

theorem auditPlainIssue_issues_grow (audits : List (String × AuditEntry))
    (name msg : String) (r : AnalysisResult) :
    r.issues <+: (auditPlainIssue audits name msg r).issues := by
  simp only [auditPlainIssue]
  split
  · split
    · exact List.prefix_append _ _
    · exact List.prefix_rfl
  · exact List.prefix_rfl

theorem runAudits_issues_grow (audits : List (String × AuditEntry))
    (r : AnalysisResult) :
    r.issues <+: (runAudits audits r).issues := by
  simp only [runAudits]
  refine List.IsPrefix.trans ?_ (auditPlainIssue_issues_grow _ _ _ _)
  refine List.IsPrefix.trans ?_ (auditPlainIssue_issues_grow _ _ _ _)
  refine List.IsPrefix.trans ?_ (auditPlainIssue_issues_grow _ _ _ _)
  refine List.IsPrefix.trans ?_ (auditPlainIssue_issues_grow _ _ _ _)
  refine List.IsPrefix.trans ?_ (auditPlainIssue_issues_grow _ _ _ _)
  refine List.IsPrefix.trans ?_ (auditPlainIssue_issues_grow _ _ _ _)
  refine List.IsPrefix.trans ?_ (auditTimingIssue_issues_grow _ _ _ _)
  refine List.IsPrefix.trans ?_ (auditTimingIssue_issues_grow _ _ _ _)
  exact auditTimingIssue_issues_grow _ _ _ r

theorem process_lighthouse_results_issues_grow (d : LhData)
    (r : AnalysisResult) :
    r.issues <+: (process_lighthouse_results d r).issues := by
  simp only [process_lighthouse_results]
  refine List.IsPrefix.trans ?_ (runAudits_issues_grow _ _)
  split <;> split <;> split <;> split <;> exact List.prefix_rfl

/-! ### Score fields untouched by the basic prober and the audit block -/

theorem sslCheck_scores (env : Env) (url : String) (r : AnalysisResult) :
    (sslCheck env url r).performance_score = r.performance_score ∧
    (sslCheck env url r).seo_score = r.seo_score ∧
    (sslCheck env url r).accessibility_score = r.accessibility_score ∧
    (sslCheck env url r).best_practices_score = r.best_practices_score := by
  refine ⟨?_, ?_, ?_, ?_⟩ <;>
    · simp only [sslCheck]
      split
      · dsimp only
      · split
        · split
          · dsimp only [addIssue]
          · dsimp only [addIssue]
        · dsimp only [addIssue]

theorem redirectCheck_scores (url : String) (resp : HttpResponse)
    (r : AnalysisResult) :
    (redirectCheck url resp r).performance_score = r.performance_score ∧
    (redirectCheck url resp r).seo_score = r.seo_score ∧
    (redirectCheck url resp r).accessibility_score = r.accessibility_score ∧
    (redirectCheck url resp r).best_practices_score = r.best_practices_score := by
  refine ⟨?_, ?_, ?_, ?_⟩ <;>
    · simp only [redirectCheck]
      split
      · dsimp only [addIssue]
      · dsimp only

theorem viewportCheck_scores (resp : HttpResponse) (r : AnalysisResult) :
    (viewportCheck resp r).performance_score = r.performance_score ∧
    (viewportCheck resp r).seo_score = r.seo_score ∧
    (viewportCheck resp r).accessibility_score = r.accessibility_score ∧
    (viewportCheck resp r).best_practices_score = r.best_practices_score := by
  refine ⟨?_, ?_, ?_, ?_⟩ <;>
    · simp only [viewportCheck]
      split
      · dsimp only
      · dsimp only [addIssue]

theorem sizeCheck_scores (resp : HttpResponse) (r : AnalysisResult) :
    (sizeCheck resp r).performance_score = r.performance_score ∧
    (sizeCheck resp r).seo_score = r.seo_score ∧
    (sizeCheck resp r).accessibility_score = r.accessibility_score ∧
    (sizeCheck resp r).best_practices_score = r.best_practices_score := by
  refine ⟨?_, ?_, ?_, ?_⟩ <;>
    · simp only [sizeCheck]
      split
      · dsimp only [addIssue]
      · dsimp only

theorem check_website_basics_scores (env : Env) (url : String)
    (r : AnalysisResult) :
    (check_website_basics env url r).performance_score = r.performance_score ∧
    (check_website_basics env url r).seo_score = r.seo_score ∧
    (check_website_basics env url r).accessibility_score = r.accessibility_score ∧
    (check_website_basics env url r).best_practices_score = r.best_practices_score := by
  simp only [check_website_basics]
  have h0 := sslCheck_scores env url r
  cases hget : env.get url with
  | error e =>
    cases e with
    | requestException m =>
        simp only [addIssue_performance, addIssue_seo, addIssue_access, addIssue_bp]
        exact h0
    | otherException m =>
        simp only [addIssue_performance, addIssue_seo, addIssue_access, addIssue_bp]
        exact h0
  | ok resp =>
    dsimp only
    split
    · simp only [addIssue_performance, addIssue_seo, addIssue_access, addIssue_bp]
      exact h0
    · refine ⟨?_, ?_, ?_, ?_⟩
      · exact ((sizeCheck_scores resp _).1).trans
          (((viewportCheck_scores resp _).1).trans
            (((redirectCheck_scores url resp _).1).trans h0.1))
      · exact ((sizeCheck_scores resp _).2.1).trans
          (((viewportCheck_scores resp _).2.1).trans
            (((redirectCheck_scores url resp _).2.1).trans h0.2.1))
      · exact ((sizeCheck_scores resp _).2.2.1).trans
          (((viewportCheck_scores resp _).2.2.1).trans
            (((redirectCheck_scores url resp _).2.2.1).trans h0.2.2.1))
      · exact ((sizeCheck_scores resp _).2.2.2).trans
          (((viewportCheck_scores resp _).2.2.2).trans
            (((redirectCheck_scores url resp _).2.2.2).trans h0.2.2.2))

theorem auditTimingIssue_scores (audits : List (String × AuditEntry))
    (name msgStart : String) (r : AnalysisResult) :
    (auditTimingIssue audits name msgStart r).performance_score = r.performance_score ∧
    (auditTimingIssue audits name msgStart r).seo_score = r.seo_score ∧
    (auditTimingIssue audits name msgStart r).accessibility_score = r.accessibility_score ∧
    (auditTimingIssue audits name msgStart r).best_practices_score = r.best_practices_score := by
  refine ⟨?_, ?_, ?_, ?_⟩ <;>
    · simp only [auditTimingIssue]
      split
      · split
        · dsimp only [addIssue]
        · dsimp only
      · dsimp only

theorem auditPlainIssue_scores (audits : List (String × AuditEntry))
    (name msg : String) (r : AnalysisResult) :
    (auditPlainIssue audits name msg r).performance_score = r.performance_score ∧
    (auditPlainIssue audits name msg r).seo_score = r.seo_score ∧
    (auditPlainIssue audits name msg r).accessibility_score = r.accessibility_score ∧
    (auditPlainIssue audits name msg r).best_practices_score = r.best_practices_score := by
  refine ⟨?_, ?_, ?_, ?_⟩ <;>
    · simp only [auditPlainIssue]
      split
      · split
        · dsimp only [addIssue]
        · dsimp only
      · dsimp only

theorem runAudits_scores (audits : List (String × AuditEntry))
    (r : AnalysisResult) :
    (runAudits audits r).performance_score = r.performance_score ∧
    (runAudits audits r).seo_score = r.seo_score ∧
    (runAudits audits r).accessibility_score = r.accessibility_score ∧
    (runAudits audits r).best_practices_score = r.best_practices_score := by
  simp only [runAudits]
  refine ⟨?_, ?_, ?_, ?_⟩
  · exact ((auditPlainIssue_scores _ _ _ _).1).trans
      (((auditPlainIssue_scores _ _ _ _).1).trans
        (((auditPlainIssue_scores _ _ _ _).1).trans
          (((auditPlainIssue_scores _ _ _ _).1).trans
            (((auditPlainIssue_scores _ _ _ _).1).trans
              (((auditPlainIssue_scores _ _ _ _).1).trans
                (((auditTimingIssue_scores _ _ _ _).1).trans
                  (((auditTimingIssue_scores _ _ _ _).1).trans
                    ((auditTimingIssue_scores _ _ _ r).1))))))))
  · exact ((auditPlainIssue_scores _ _ _ _).2.1).trans
      (((auditPlainIssue_scores _ _ _ _).2.1).trans
        (((auditPlainIssue_scores _ _ _ _).2.1).trans
          (((auditPlainIssue_scores _ _ _ _).2.1).trans
            (((auditPlainIssue_scores _ _ _ _).2.1).trans
              (((auditPlainIssue_scores _ _ _ _).2.1).trans
                (((auditTimingIssue_scores _ _ _ _).2.1).trans
                  (((auditTimingIssue_scores _ _ _ _).2.1).trans
                    ((auditTimingIssue_scores _ _ _ r).2.1))))))))
  · exact ((auditPlainIssue_scores _ _ _ _).2.2.1).trans
      (((auditPlainIssue_scores _ _ _ _).2.2.1).trans
        (((auditPlainIssue_scores _ _ _ _).2.2.1).trans
          (((auditPlainIssue_scores _ _ _ _).2.2.1).trans
            (((auditPlainIssue_scores _ _ _ _).2.2.1).trans
              (((auditPlainIssue_scores _ _ _ _).2.2.1).trans
                (((auditTimingIssue_scores _ _ _ _).2.2.1).trans
                  (((auditTimingIssue_scores _ _ _ _).2.2.1).trans
                    ((auditTimingIssue_scores _ _ _ r).2.2.1))))))))
  · exact ((auditPlainIssue_scores _ _ _ _).2.2.2).trans
      (((auditPlainIssue_scores _ _ _ _).2.2.2).trans
        (((auditPlainIssue_scores _ _ _ _).2.2.2).trans
          (((auditPlainIssue_scores _ _ _ _).2.2.2).trans
            (((auditPlainIssue_scores _ _ _ _).2.2.2).trans
              (((auditPlainIssue_scores _ _ _ _).2.2.2).trans
                (((auditTimingIssue_scores _ _ _ _).2.2.2).trans
                  (((auditTimingIssue_scores _ _ _ _).2.2.2).trans
                    ((auditTimingIssue_scores _ _ _ r).2.2.2))))))))

/-! ### The external tool invocation: result shape and file cleanup -/

theorem run_lighthouse_fileAfter (t : ToolEnv) :
    (run_lighthouse t).fileAfter = .absent := by
  simp only [run_lighthouse, finishRun, applyFinally]
  repeat' split
  all_goals rfl

theorem run_lighthouse_ok (t : ToolEnv) (h : t.mkstempFails = none) :
    ∃ o, (run_lighthouse t).result = .ok o := by
  simp only [run_lighthouse, finishRun, h]
  repeat' split
  all_goals exact ⟨_, rfl⟩

theorem run_lighthouse_mkstemp_error (t : ToolEnv) (e : PyExc)
    (h : t.mkstempFails = some e) :
    (run_lighthouse t).result = .error e := by
  simp only [run_lighthouse, h]

/-! ### The normalizer: category scores -/

theorem process_scores (d : LhData) (r : AnalysisResult) :
    ((process_lighthouse_results d r).performance_score =
      match d.categories.lookup "performance" with
      | some q => pyInt (q * 100)
      | none => r.performance_score) ∧
    ((process_lighthouse_results d r).accessibility_score =
      match d.categories.lookup "accessibility" with
      | some q => pyInt (q * 100)
      | none => r.accessibility_score) ∧
    ((process_lighthouse_results d r).best_practices_score =
      match d.categories.lookup "best-practices" with
      | some q => pyInt (q * 100)
      | none => r.best_practices_score) ∧
    ((process_lighthouse_results d r).seo_score =
      match d.categories.lookup "seo" with
      | some q => pyInt (q * 100)
      | none => r.seo_score) := by
  simp only [process_lighthouse_results]
  refine ⟨?_, ?_, ?_, ?_⟩
  · rw [(runAudits_scores _ _).1]
    rcases hp : d.categories.lookup "performance" with _ | qp <;>
      rcases ha : d.categories.lookup "accessibility" with _ | qa <;>
      rcases hb : d.categories.lookup "best-practices" with _ | qb <;>
      rcases hs : d.categories.lookup "seo" with _ | qs <;>
      simp only [hp, ha, hb, hs]
  · rw [(runAudits_scores _ _).2.2.1]
    rcases hp : d.categories.lookup "performance" with _ | qp <;>
      rcases ha : d.categories.lookup "accessibility" with _ | qa <;>
      rcases hb : d.categories.lookup "best-practices" with _ | qb <;>
      rcases hs : d.categories.lookup "seo" with _ | qs <;>
      simp only [hp, ha, hb, hs]
  · rw [(runAudits_scores _ _).2.2.2]
    rcases hp : d.categories.lookup "performance" with _ | qp <;>
      rcases ha : d.categories.lookup "accessibility" with _ | qa <;>
      rcases hb : d.categories.lookup "best-practices" with _ | qb <;>
      rcases hs : d.categories.lookup "seo" with _ | qs <;>
      simp only [hp, ha, hb, hs]
  · rw [(runAudits_scores _ _).2.1]
    rcases hp : d.categories.lookup "performance" with _ | qp <;>
      rcases ha : d.categories.lookup "accessibility" with _ | qa <;>
      rcases hb : d.categories.lookup "best-practices" with _ | qb <;>
      rcases hs : d.categories.lookup "seo" with _ | qs <;>
      simp only [hp, ha, hb, hs]

/-! ### The fallback analyzer: accessibility characterisation -/

theorem headersCheck_scores_noBp (resp : HttpResponse) (r : AnalysisResult) :
    (headersCheck resp r).performance_score = r.performance_score ∧
    (headersCheck resp r).seo_score = r.seo_score ∧
    (headersCheck resp r).accessibility_score = r.accessibility_score := by
  refine ⟨?_, ?_, ?_⟩ <;>
    · simp only [headersCheck]
      split
      · dsimp only
      · dsimp only [addIssue]

theorem occursIn_pat_mono {hay pat patSub : List Char}
    (h : occursIn hay pat = true) (hsub : patSub <:+: pat) :
    occursIn hay patSub = true :=
  (occursIn_infix_iff hay patSub).mpr
    (hsub.trans ((occursIn_infix_iff hay pat).mp h))

theorem altMarker_subsumption (html : String) :
    (strContains html "<img " &&
        (!strContains html " alt=\"" || !strContains html " alt=")) =
      (strContains html "<img " && !strContains html " alt=\"") := by
  cases hA : strContains html " alt=\"" with
  | false => simp
  | true =>
    have hB : strContains html " alt=" = true :=
      occursIn_pat_mono hA ⟨[], [Char.ofNat 34], by decide⟩
    simp [hB]

theorem imgAltCheck_access (html : String) (r : AnalysisResult) :
    ((strContains html "<img " && !strContains html " alt=\"") = true →
      (imgAltCheck html r).accessibility_score = 40 ∧
      "Images may be missing alt text" ∈ (imgAltCheck html r).issues) ∧
    ((strContains html "<img " && !strContains html " alt=\"") = false →
      imgAltCheck html r = r) := by
  simp only [imgAltCheck, altMarker_subsumption]
  split
  · next hc =>
    constructor
    · intro _
      refine ⟨rfl, ?_⟩
      simp [addIssue]
    · intro hf
      rw [hc] at hf
      cases hf
  · next hc =>
    constructor
    · intro ht
      rw [ht] at hc
      exact absurd rfl hc
    · intro _
      rfl

/-! ### Postcode search -/

theorem searchPostcode_eq_none : ∀ {cs : List Char},
    (∀ i, matchPostcodeAt (cs.drop i) = none) → searchPostcode cs = none := by
  intro cs
  induction cs with
  | nil => intro _; rfl
  | cons c t ih =>
    intro h
    have h0 := h 0
    rw [List.drop_zero] at h0
    rw [searchPostcode, h0]
    exact ih (fun i => by simpa using h (i + 1))

/-! ### The space-joined issues text contains every single issue -/

theorem joinSpace_infix_of_mem : ∀ {l : List String} {s : String}, s ∈ l →
    s.toList <:+: (joinSpace l).toList := by
  intro l
  induction l with
  | nil => intro s h; cases h
  | cons a t ih =>
    intro s h
    match t, h with
    | [], h =>
      have hs : s = a := by simpa using h
      subst hs
      exact List.infix_rfl
    | b :: t2, h =>
      rcases List.mem_cons.mp h with hs | hmem
      · subst hs
        rw [joinSpace]
        show s.toList <:+: ((s ++ " ") ++ joinSpace (b :: t2)).data
        rw [String.data_append, String.data_append]
        exact ((List.prefix_append s.toList _).trans
          (List.prefix_append _ _)).isInfix
      · rw [joinSpace]
        show s.toList <:+: ((a ++ " ") ++ joinSpace (b :: t2)).data
        rw [String.data_append]
        exact (ih hmem).trans (List.suffix_append _ _).isInfix

theorem strContains_joinSpace_of_mem {l : List String} {s : String}
    (hmem : s ∈ l) (h : strContains s "Error accessing website" = true) :
    strContains (joinSpace l) "Error accessing website" = true :=
  occursIn_mono h (joinSpace_infix_of_mem hmem)

/-! ### Shapes of `analyze_website` by availability flag and run outcome -/

/-- Lines 100-101 of `analyze_website`: the report is processed only
when one was produced. -/
def procOrSkip : Option LhData → AnalysisResult → AnalysisResult
  | some d, r => process_lighthouse_results d r
  | none, r => r

theorem analyze_website_avail_false (env : Env) (url : String)
    (h : url ≠ "") :
    analyze_website env false url =
      { result := .ok { perform_basic_analysis env (withScheme url)
            (addIssue (check_website_basics env (withScheme url) initResults)
              "Lighthouse not available for detailed analysis") with
          priority := some (calculate_priority (perform_basic_analysis env
            (withScheme url)
            (addIssue (check_website_basics env (withScheme url) initResults)
              "Lighthouse not available for detailed analysis"))) },
        tmpFileAfter := .absent } := by
  simp only [analyze_website, if_neg h]
  split
  · next hc => exact absurd hc (by decide)
  · rfl

theorem analyze_website_avail_true_ok (env : Env) (url : String)
    (h : url ≠ "") (o : Option LhData)
    (ho : (run_lighthouse env.tool).result = .ok o) :
    analyze_website env true url =
      { result := .ok { procOrSkip o
            (check_website_basics env (withScheme url) initResults) with
          priority := some (calculate_priority (procOrSkip o
            (check_website_basics env (withScheme url) initResults))) },
        tmpFileAfter := (run_lighthouse env.tool).fileAfter } := by
  simp only [analyze_website, if_neg h]
  split
  · rw [ho]
    cases o <;> rfl
  · next hc => exact absurd trivial hc

theorem analyze_website_avail_true_error (env : Env) (url : String)
    (h : url ≠ "") (e : PyExc)
    (he : (run_lighthouse env.tool).result = .error e) :
    analyze_website env true url =
      { result := .error e,
        tmpFileAfter := (run_lighthouse env.tool).fileAfter } := by
  simp only [analyze_website, if_neg h]
  split
  · rw [he]
  · next hc => exact absurd trivial hc

theorem analyze_website_empty_url (env : Env) (avail : Bool) :
    analyze_website env avail "" =
      { result := .ok (addIssue initResults "No URL provided"),
        tmpFileAfter := .absent } := by
  simp only [analyze_website]
  rw [if_pos trivial]

/-! ### Concrete collaborator environments for witnesses and counterexamples -/

/-- A healthy page: status 200, viewport and description meta tags, a
title, an image with double-quoted alt text, all security headers. -/
def respOk : HttpResponse :=
  { status_code := 200, url := "https://example.com",
    text := "<html><head><meta name=\"viewport\"><meta name=\"description\" content=\"d\"><title>t</title></head><body><img src=\"y\" alt=\"z\"></body></html>",
    content_length := 1000,
    headers := ["Strict-Transport-Security", "Content-Security-Policy",
      "X-Content-Type-Options"] }

/-- Tool collaborators that all succeed but write no output file. -/
def toolNoOutput : ToolEnv :=
  { mkstempFails := none, chromeFound := false, chromeStartFails := false,
    npxRun := { raised := none, file := .empty },
    standaloneRun := { raised := none, file := .empty } }

/-- Benign network, external tool produces no report. -/
def env0 : Env :=
  { head := fun _ => .ok respOk, get := fun _ => .ok respOk,
    tool := toolNoOutput }

/-- Like `env0` but temporary-file creation raises. -/
def envMkstempFail : Env :=
  { env0 with tool :=
      { toolNoOutput with
          mkstempFails := some (.otherException "mkstemp failed") } }

/-- A page whose image carries an unquoted `alt=` attribute. -/
def respImgAlt : HttpResponse :=
  { status_code := 200, url := "https://example.com",
    text := "<html><head><meta name=\"viewport\"><title>t</title></head><body><img src=a alt=b></body></html>",
    content_length := 100, headers := [] }

/-- Benign network serving the unquoted-alt page. -/
def envImgAlt : Env :=
  { env0 with get := fun _ => .ok respImgAlt }

/-! ### Claims -/

/-- The final record and the record for the empty URL used by several
witnesses below; their values were fixed by evaluating the model. -/
def fallbackExampleResult : AnalysisResult :=
  { performance_score := 70, seo_score := 60, accessibility_score := 50,
    best_practices_score := 60, has_ssl := true, has_mobile_viewport := true,
    issues := ["Lighthouse not available for detailed analysis"],
    priority := some 3 }

/-- What `analyze_website env0 true "example.com"` produces: the tool is
available but yields no report, and no fallback runs. -/
def noReportResult : AnalysisResult :=
  { performance_score := 0, seo_score := 0, accessibility_score := 0,
    best_practices_score := 0, has_ssl := true, has_mobile_viewport := true,
    issues := [], priority := some 2 }

/-- The early-return record of `analyze_website ""` (line 88): note the
missing `priority`. -/
def emptyUrlResult : AnalysisResult :=
  { initResults with issues := ["No URL provided"] }

/-- C1 (amended): when the availability flag is true and the external
tool yields no report, the Fallback Heuristic Analyzer is NOT invoked:
the four score fields keep their initial value 0 and the issues are
exactly those of the basic prober.  (The fallback runs only on the
`lighthouse_available = false` branch.) -/
theorem C1_no_fallback_when_tool_available (env : Env) (url : String)
    (hurl : url ≠ "") (hrun : (run_lighthouse env.tool).result = .ok none) :
    ∃ r, (analyze_website env true url).result = .ok r ∧
      r.performance_score = 0 ∧ r.seo_score = 0 ∧
      r.accessibility_score = 0 ∧ r.best_practices_score = 0 ∧
      r.issues = (check_website_basics env (withScheme url) initResults).issues := by
  rw [analyze_website_avail_true_ok env url hurl none hrun]
  refine ⟨_, rfl, ?_, ?_, ?_, ?_, rfl⟩
  · exact (check_website_basics_scores env (withScheme url) initResults).1
  · exact (check_website_basics_scores env (withScheme url) initResults).2.1
  · exact (check_website_basics_scores env (withScheme url) initResults).2.2.1
  · exact (check_website_basics_scores env (withScheme url) initResults).2.2.2

/-- C1 counterexample: with the tool available but producing no report,
all four scores stay 0 — the fallback heuristics are not applied, even
though on the same environment they would have set the performance score
to 70. -/
theorem C1_counterexample :
    (analyze_website env0 true "example.com").result = .ok noReportResult ∧
    noReportResult.performance_score = 0 ∧ noReportResult.seo_score = 0 ∧
    noReportResult.accessibility_score = 0 ∧
    noReportResult.best_practices_score = 0 ∧
    (perform_basic_analysis env0 (withScheme "example.com")
        noReportResult).performance_score = 70 := by decide

/-- Witness for C1 at a concrete environment. -/
theorem C1_witness :
    ∃ r, (analyze_website env0 true "example.com").result = .ok r ∧
      r.performance_score = 0 ∧ r.seo_score = 0 ∧
      r.accessibility_score = 0 ∧ r.best_practices_score = 0 ∧
      r.issues = (check_website_basics env0 (withScheme "example.com")
        initResults).issues :=
  C1_no_fallback_when_tool_available env0 "example.com" (by decide) (by decide)

/-- C2 (amended): `analyze_website ""` returns, for every environment
and availability flag, exactly the record with the single issue
"No URL provided", all scores 0, and NO priority: the early return at
line 88 skips the priority calculator (which would have yielded 2). -/
theorem C2_empty_url (env : Env) (avail : Bool) :
    (analyze_website env avail "").result = .ok emptyUrlResult ∧
    emptyUrlResult.issues = ["No URL provided"] ∧
    emptyUrlResult.performance_score = 0 ∧ emptyUrlResult.seo_score = 0 ∧
    emptyUrlResult.accessibility_score = 0 ∧
    emptyUrlResult.best_practices_score = 0 ∧
    emptyUrlResult.priority = none ∧
    calculate_priority emptyUrlResult = 2 := by
  refine ⟨?_, rfl, rfl, rfl, rfl, rfl, rfl, by decide⟩
  rw [analyze_website_empty_url]
  rfl

/-- C2 counterexample: the result of `analyze_website ""` carries no
priority at all — the priority field is absent (`none`), not 2. -/
theorem C2_counterexample :
    (analyze_website env0 true "").result = .ok emptyUrlResult ∧
    emptyUrlResult.priority = none ∧ emptyUrlResult.priority ≠ some 2 := by
  refine ⟨?_, rfl, by decide⟩
  rw [analyze_website_empty_url]
  rfl

/-- C5 (amended): `analyze_website` returns a populated result — no
exception escapes — for every behaviour of the network and subprocess
collaborators, PROVIDED the temporary-file creation step succeeds (that
step runs before the protecting `try`); when the tool is unavailable it
never raises at all. -/
theorem C5_no_raise (env : Env) (avail : Bool) (url : String)
    (h : avail = false ∨ env.tool.mkstempFails = none) :
    ∃ r, (analyze_website env avail url).result = .ok r := by
  by_cases hurl : url = ""
  · subst hurl
    rw [analyze_website_empty_url]
    exact ⟨_, rfl⟩
  · cases avail with
    | false =>
      rw [analyze_website_avail_false env url hurl]
      exact ⟨_, rfl⟩
    | true =>
      rcases h with hf | hmk
      · cases hf
      · obtain ⟨o, ho⟩ := run_lighthouse_ok env.tool hmk
        rw [analyze_website_avail_true_ok env url hurl o ho]
        exact ⟨_, rfl⟩

/-- C5 counterexample: a failure of `tempfile.mkstemp` (line 160, before
the `try`) escapes `analyze_website` as an exception. -/
theorem C5_counterexample :
    (analyze_website envMkstempFail true "example.com").result =
      .error (.otherException "mkstemp failed") := by decide

/-- Witness for C5 at a concrete environment. -/
theorem C5_witness :
    ∃ r, (analyze_website env0 true "example.com").result = .ok r :=
  C5_no_raise env0 true "example.com" (Or.inr rfl)

/-- C6: on every exit path of the external-tool invocation the
temporary output file is deleted before returning, so it does not exist
after `analyze_website` returns. -/
theorem C6_temp_file_always_deleted :
    (∀ t : ToolEnv, (run_lighthouse t).fileAfter = .absent) ∧
    (∀ (env : Env) (avail : Bool) (url : String),
      (analyze_website env avail url).tmpFileAfter = .absent) := by
  refine ⟨run_lighthouse_fileAfter, ?_⟩
  intro env avail url
  by_cases hurl : url = ""
  · subst hurl
    rw [analyze_website_empty_url]
  · cases avail with
    | false => rw [analyze_website_avail_false env url hurl]
    | true =>
      rcases hres : (run_lighthouse env.tool).result with e | o
      · rw [analyze_website_avail_true_error env url hurl e hres]
        exact run_lighthouse_fileAfter env.tool
      · rw [analyze_website_avail_true_ok env url hurl o hres]
        exact run_lighthouse_fileAfter env.tool

/-- C7: every pipeline stage only appends to the issues list (the input
issues are a prefix of the output issues), and the final result of
`analyze_website` extends the basic-prober issues in order. -/
theorem C7_issues_append_only :
    (∀ (env : Env) (url : String) (r : AnalysisResult),
      r.issues <+: (check_website_basics env url r).issues) ∧
    (∀ (d : LhData) (r : AnalysisResult),
      r.issues <+: (process_lighthouse_results d r).issues) ∧
    (∀ (env : Env) (url : String) (r : AnalysisResult),
      r.issues <+: (perform_basic_analysis env url r).issues) ∧
    (∀ (env : Env) (avail : Bool) (url : String) (r : AnalysisResult),
      url ≠ "" → (analyze_website env avail url).result = .ok r →
      (check_website_basics env (withScheme url) initResults).issues <+:
        r.issues) := by
  refine ⟨check_website_basics_issues_grow,
    process_lighthouse_results_issues_grow,
    perform_basic_analysis_issues_grow, ?_⟩
  intro env avail url r hurl hok
  cases avail with
  | false =>
    rw [analyze_website_avail_false env url hurl] at hok
    simp only [Except.ok.injEq] at hok
    subst hok
    refine List.IsPrefix.trans ?_ (perform_basic_analysis_issues_grow _ _ _)
    rw [addIssue_issues]
    exact List.prefix_append _ _
  | true =>
    rcases hres : (run_lighthouse env.tool).result with e | o
    · rw [analyze_website_avail_true_error env url hurl e hres] at hok
      simp at hok
    · rw [analyze_website_avail_true_ok env url hurl o hres] at hok
      simp only [Except.ok.injEq] at hok
      subst hok
      cases o with
      | none => exact List.prefix_rfl
      | some d => exact process_lighthouse_results_issues_grow d _

/-- Witness for C7 instantiating the final-result component. -/
theorem C7_witness :
    (check_website_basics env0 (withScheme "example.com") initResults).issues <+:
      fallbackExampleResult.issues :=
  C7_issues_append_only.2.2.2 env0 false "example.com" fallbackExampleResult
    (by decide) (by decide)

/-- C10: for every non-empty URL, when the cached availability flag is
false the returned issues contain the "Lighthouse not available"
marker, so on the fallback path the issues list is never empty. -/
theorem C10_unavailable_issue (env : Env) (url : String) (h : url ≠ "") :
    ∃ r, (analyze_website env false url).result = .ok r ∧
      "Lighthouse not available for detailed analysis" ∈ r.issues ∧
      r.issues ≠ [] := by
  rw [analyze_website_avail_false env url h]
  have hmem : "Lighthouse not available for detailed analysis" ∈
      (addIssue (check_website_basics env (withScheme url) initResults)
        "Lighthouse not available for detailed analysis").issues := by
    rw [addIssue_issues]
    exact List.mem_append_right _ (by simp)
  have hall := (perform_basic_analysis_issues_grow env (withScheme url)
    (addIssue (check_website_basics env (withScheme url) initResults)
      "Lighthouse not available for detailed analysis")).subset hmem
  exact ⟨_, rfl, hall, List.ne_nil_of_mem hall⟩

/-- Witness for C10 at a concrete environment. -/
theorem C10_witness :
    ∃ r, (analyze_website env0 false "example.com").result = .ok r ∧
      "Lighthouse not available for detailed analysis" ∈ r.issues ∧
      r.issues ≠ [] :=
  C10_unavailable_issue env0 "example.com" (by decide)

/-- The record used to exhibit the cross-boundary marker behaviour of
the priority calculator. -/
def priorityJoinCex : AnalysisResult :=
  { performance_score := 100, seo_score := 100, accessibility_score := 100,
    best_practices_score := 100, has_ssl := true, has_mobile_viewport := true,
    issues := ["Error accessing", "website"], priority := none }

/-- A record with a genuine website-access-error issue. -/
def errorIssueResult : AnalysisResult :=
  { initResults with issues := ["Error accessing website: timeout"] }

/-- C3 (amended): the priority calculator returns 1 iff the SPACE-JOINED
issues text contains the marker (the code tests
`' '.join(results['issues'])`, so the marker may straddle two adjacent
issues); when the joined text lacks the marker it returns 2 iff the mean
of the four scores is below 60 or more than 3 issues were recorded, and
3 otherwise; the output is always in {1, 2, 3} and depends only on the
issues and the four score fields; a marker contained in a single issue
still forces priority 1. -/
theorem C3_priority_rule (r r2 : AnalysisResult) :
    (calculate_priority r = 1 ↔
      strContains (joinSpace r.issues) "Error accessing website" = true) ∧
    (strContains (joinSpace r.issues) "Error accessing website" = false →
      (calculate_priority r = 2 ↔
        (((r.performance_score + r.seo_score + r.accessibility_score +
            r.best_practices_score : ℤ) : ℚ) / 4 < 60 ∨
          3 < r.issues.length))) ∧
    (calculate_priority r = 1 ∨ calculate_priority r = 2 ∨
      calculate_priority r = 3) ∧
    ((∃ s ∈ r.issues, strContains s "Error accessing website" = true) →
      calculate_priority r = 1) ∧
    (r.issues = r2.issues → r.performance_score = r2.performance_score →
      r.seo_score = r2.seo_score →
      r.accessibility_score = r2.accessibility_score →
      r.best_practices_score = r2.best_practices_score →
      calculate_priority r = calculate_priority r2) := by
  have hcp : ∀ x : AnalysisResult, calculate_priority x =
      if strContains (joinSpace x.issues) "Error accessing website" = true
      then 1
      else
        if (((x.performance_score + x.seo_score + x.accessibility_score +
            x.best_practices_score : ℤ) : ℚ) / 4 < 60) ∨ 3 < x.issues.length
        then 2 else 3 := fun x => rfl
  refine ⟨?_, ?_, ?_, ?_, ?_⟩
  · rw [hcp r]
    by_cases hm : strContains (joinSpace r.issues) "Error accessing website" = true
    · simp [hm]
    · rw [if_neg hm]
      constructor
      · intro h2
        split at h2
        · exact absurd h2 (by decide)
        · exact absurd h2 (by decide)
      · intro hmm
        exact absurd hmm hm
  · intro hm
    have hm2 : ¬ strContains (joinSpace r.issues) "Error accessing website" = true := by
      simp [hm]
    rw [hcp r, if_neg hm2]
    constructor
    · intro h2
      by_contra hc
      rw [if_neg hc] at h2
      exact absurd h2 (by decide)
    · intro hc
      rw [if_pos hc]
  · rw [hcp r]
    split
    · exact Or.inl rfl
    · split
      · exact Or.inr (Or.inl rfl)
      · exact Or.inr (Or.inr rfl)
  · rintro ⟨s, hmem, hs⟩
    rw [hcp r, if_pos (strContains_joinSpace_of_mem hmem hs)]
  · intro h1 h2 h3 h4 h5
    rw [hcp r, hcp r2, h1, h2, h3, h4, h5]

/-- C3 counterexample: with issues ["Error accessing", "website"] no
single issue contains the marker, the mean is 100 and there are only 2
issues, yet the code returns priority 1, because the marker appears in
the space-joined text. -/
theorem C3_counterexample :
    calculate_priority priorityJoinCex = 1 ∧
    priorityJoinCex.issues.all
      (fun s => !strContains s "Error accessing website") = true ∧
    ¬(((priorityJoinCex.performance_score + priorityJoinCex.seo_score +
        priorityJoinCex.accessibility_score +
        priorityJoinCex.best_practices_score : ℤ) : ℚ) / 4 < 60) ∧
    priorityJoinCex.issues.length ≤ 3 := by decide

/-- Witness for C3: a result with a real access-error issue gets
priority 1, and the calculator ignores every other field. -/
theorem C3_witness :
    calculate_priority errorIssueResult = 1 ∧
    calculate_priority errorIssueResult =
      calculate_priority { errorIssueResult with priority := some 9 } :=
  ⟨(C3_priority_rule errorIssueResult errorIssueResult).2.2.2.1
      ⟨"Error accessing website: timeout", by decide, by decide⟩,
    (C3_priority_rule errorIssueResult
        { errorIssueResult with priority := some 9 }).2.2.2.2
      rfl rfl rfl rfl rfl⟩

/-- The scenario report of the spec: performance 0.9, seo 0.3, the other
two categories absent. -/
def scenarioRep : LhData :=
  { categories := [("performance", 9 / 10), ("seo", 3 / 10)], audits := [] }

/-- A report whose fractional score separates truncation from rounding
(0.875 is exactly representable in binary floating point). -/
def truncRep : LhData :=
  { categories := [("performance", 7 / 8)], audits := [] }

/-- C4 (amended): each category present in the report sets its score
field to the Python `int()` TRUNCATION of `fractional_score * 100` (not
`round(...)`); an absent category leaves the field unchanged; the
spec scenario (0.9 performance, 0.3 seo, others absent) yields
90/30/0/0 since those products are whole numbers. -/
theorem C4_normalizer_trunc (d : LhData) (r : AnalysisResult) :
    (∀ q, d.categories.lookup "performance" = some q →
      (process_lighthouse_results d r).performance_score = pyInt (q * 100)) ∧
    (d.categories.lookup "performance" = none →
      (process_lighthouse_results d r).performance_score =
        r.performance_score) ∧
    (∀ q, d.categories.lookup "accessibility" = some q →
      (process_lighthouse_results d r).accessibility_score = pyInt (q * 100)) ∧
    (d.categories.lookup "accessibility" = none →
      (process_lighthouse_results d r).accessibility_score =
        r.accessibility_score) ∧
    (∀ q, d.categories.lookup "best-practices" = some q →
      (process_lighthouse_results d r).best_practices_score = pyInt (q * 100)) ∧
    (d.categories.lookup "best-practices" = none →
      (process_lighthouse_results d r).best_practices_score =
        r.best_practices_score) ∧
    (∀ q, d.categories.lookup "seo" = some q →
      (process_lighthouse_results d r).seo_score = pyInt (q * 100)) ∧
    (d.categories.lookup "seo" = none →
      (process_lighthouse_results d r).seo_score = r.seo_score) ∧
    ((process_lighthouse_results scenarioRep initResults).performance_score = 90 ∧
     (process_lighthouse_results scenarioRep initResults).seo_score = 30 ∧
     (process_lighthouse_results scenarioRep initResults).accessibility_score = 0 ∧
     (process_lighthouse_results scenarioRep initResults).best_practices_score = 0) := by
  have hp := (process_scores d r).1
  have ha := (process_scores d r).2.1
  have hb := (process_scores d r).2.2.1
  have hs := (process_scores d r).2.2.2
  refine ⟨?_, ?_, ?_, ?_, ?_, ?_, ?_, ?_, by decide⟩
  · intro q hq; rw [hp, hq]
  · intro hq; rw [hp, hq]
  · intro q hq; rw [ha, hq]
  · intro hq; rw [ha, hq]
  · intro q hq; rw [hb, hq]
  · intro hq; rw [hb, hq]
  · intro q hq; rw [hs, hq]
  · intro hq; rw [hs, hq]

/-- C4 counterexample: for fractional score 0.875 the code stores
int(87.5) = 87 while the claimed round(87.5) is 88. -/
theorem C4_counterexample :
    (process_lighthouse_results truncRep initResults).performance_score = 87 ∧
    pyRound ((7 : ℚ) / 8 * 100) = 88 ∧ (87 : ℤ) ≠ 88 := by decide

/-- Witness for C4 instantiating the performance clause on the scenario
report. -/
theorem C4_witness :
    (process_lighthouse_results scenarioRep initResults).performance_score =
      pyInt ((9 / 10 : ℚ) * 100) :=
  (C4_normalizer_trunc scenarioRep initResults).1 (9 / 10) (by decide)

theorem fallback_access_tail (resp : HttpResponse) (html : String)
    (rb : AnalysisResult) :
    ((strContains html "<img " && !strContains html " alt=\"") = true →
      (headersCheck resp
        { imgAltCheck html { rb with accessibility_score := 50 } with
          best_practices_score := 60 }).accessibility_score = 40 ∧
      "Images may be missing alt text" ∈
        (headersCheck resp
          { imgAltCheck html { rb with accessibility_score := 50 } with
            best_practices_score := 60 }).issues) ∧
    ((strContains html "<img " && !strContains html " alt=\"") = false →
      (headersCheck resp
        { imgAltCheck html { rb with accessibility_score := 50 } with
          best_practices_score := 60 }).accessibility_score = 50) := by
  constructor
  · intro hc
    have h1 := (imgAltCheck_access html { rb with accessibility_score := 50 }).1 hc
    constructor
    · exact ((headersCheck_scores_noBp resp _).2.2).trans h1.1
    · exact (headersCheck_issues_grow resp _).subset h1.2
  · intro hc
    have h2 := (imgAltCheck_access html { rb with accessibility_score := 50 }).2 hc
    refine ((headersCheck_scores_noBp resp _).2.2).trans ?_
    rw [h2]

theorem perform_basic_analysis_access (env : Env) (url : String)
    (r : AnalysisResult) (resp : HttpResponse)
    (hget : env.get url = .ok resp) :
    ((strContains (pyLower resp.text) "<img " &&
        !strContains (pyLower resp.text) " alt=\"") = true →
      (perform_basic_analysis env url r).accessibility_score = 40 ∧
      "Images may be missing alt text" ∈
        (perform_basic_analysis env url r).issues) ∧
    ((strContains (pyLower resp.text) "<img " &&
        !strContains (pyLower resp.text) " alt=\"") = false →
      (perform_basic_analysis env url r).accessibility_score = 50) := by
  simp only [perform_basic_analysis, hget]
  exact fallback_access_tail resp (pyLower resp.text)
    (seoMetaCheck (pyLower resp.text) (seoTitleCheck (pyLower resp.text)
      { perfSizeCheck resp r with seo_score := 60 }))

/-- C8 (amended): on a successfully fetched page the fallback sets the
accessibility score to 40 and appends the issue iff the lowercased text
contains "<img " (with a trailing space) AND does not contain the
double-quoted marker " alt=\"" — the code's second disjunct
(absence of " alt=") is subsumed by the first; otherwise the score is
the default 50.  An unquoted `alt=` attribute does not prevent the
downgrade. -/
theorem C8_img_alt_rule (env : Env) (url : String) (r : AnalysisResult)
    (resp : HttpResponse) (hget : env.get url = .ok resp) :
    ((strContains (pyLower resp.text) "<img " = true ∧
      strContains (pyLower resp.text) " alt=\"" = false) →
      (perform_basic_analysis env url r).accessibility_score = 40 ∧
      "Images may be missing alt text" ∈
        (perform_basic_analysis env url r).issues) ∧
    (¬(strContains (pyLower resp.text) "<img " = true ∧
        strContains (pyLower resp.text) " alt=\"" = false) →
      (perform_basic_analysis env url r).accessibility_score = 50) := by
  have haux := perform_basic_analysis_access env url r resp hget
  constructor
  · rintro ⟨h1, h2⟩
    exact haux.1 (by simp [h1, h2])
  · intro hn
    refine haux.2 ?_
    cases hA : strContains (pyLower resp.text) "<img " with
    | false => rfl
    | true =>
      cases hB : strContains (pyLower resp.text) " alt=\"" with
      | false => exact absurd ⟨hA, hB⟩ hn
      | true => rfl

/-- C8 counterexample: a page with an unquoted `alt=` attribute — the
page does contain both an img tag and an `alt=` marker, yet the code
still downgrades the accessibility score to 40. -/
theorem C8_counterexample :
    (perform_basic_analysis envImgAlt (withScheme "example.com")
        initResults).accessibility_score = 40 ∧
    strContains (pyLower respImgAlt.text) "alt=" = true ∧
    strContains (pyLower respImgAlt.text) "<img " = true := by decide

/-- Witness for C8 on the unquoted-alt page. -/
theorem C8_witness :
    (perform_basic_analysis envImgAlt (withScheme "example.com")
        initResults).accessibility_score = 40 ∧
    "Images may be missing alt text" ∈
      (perform_basic_analysis envImgAlt (withScheme "example.com")
        initResults).issues :=
  (C8_img_alt_rule envImgAlt (withScheme "example.com") initResults respImgAlt
      rfl).1 ⟨by decide, by decide⟩

/-- C9: `extract_postcode` finds "SW1A 1AA" in the spaced text, inserts
the space into the unspaced "SW1A1AA", and returns none for any text in
which no position matches the UK-postcode regex. -/
theorem C9_extract_postcode (t : String)
    (hno : ∀ i, matchPostcodeAt ((pyUpper t).toList.drop i) = none) :
    extract_postcode "visit us at SW1A 1AA today" = some "SW1A 1AA" ∧
    extract_postcode "The code SW1A1AA here" = some "SW1A 1AA" ∧
    extract_postcode t = none := by
  refine ⟨by decide, by decide, ?_⟩
  simp only [extract_postcode]
  split
  · rfl
  · rw [searchPostcode_eq_none hno]

/-- Witness for C9 on a text with no postcode. -/
theorem C9_witness :
    extract_postcode "visit us at SW1A 1AA today" = some "SW1A 1AA" ∧
    extract_postcode "The code SW1A1AA here" = some "SW1A 1AA" ∧
    extract_postcode "no postcode here" = none :=
  C9_extract_postcode "no postcode here" (fun i => by
    have hlen : ((pyUpper "no postcode here").toList).length = 16 := by decide
    rcases Nat.lt_or_ge i 16 with hi | hi
    · interval_cases i <;> decide
    · rw [List.drop_eq_nil_of_le (by rw [hlen]; exact hi)]
      decide)

end LeadGen
